import Mathlib

/-
  Verification of the elementwise-operator engine of executorch-EF.

  Source files embedded:
    src/kernels/portable/cpu/op_bitwise_or.cpp   (bitwise_or, bitwise_or_Tensor_out,
                                                  bitwise_or_Scalar_out)
    src/kernels/portable/cpu/op_detach_copy.cpp  (detach_copy_out)
    src/kernels/test/op_tan_test.cpp             (expected behaviour of the strictly
                                                  floating unary entry point)

  The engine utilities these operators call (broadcast_util.h, scalar_utils.h,
  functional_util.h, resize_tensor, promoteTypes, canCast) belong to the
  repository but are not under src/; they are modelled from spec.md
  (sections 4.1-4.4, 6, 7), as marked on each definition.

  Machine integers are modelled as Lean Int with explicit wrapping at the
  dtype width; tensor buffers are lists of Int (one entry per element slot of
  the backing buffer, so capacity = data.length).  Floating-point payloads are
  never computed with by any verified claim; float-typed buffer slots carry
  the exact Int image of what was stored.
-/

namespace Executorch

/-- The dtype enumeration (spec section 3): bool, uint8 (Byte), int8 (Char),
int16 (Short), int32 (Int), int64 (Long), float32 (Float), float64 (Double). -/
inductive ScalarType where
  | Bool
  | Byte
  | Char
  | Short
  | Int
  | Long
  | Float
  | Double
deriving DecidableEq, Repr

/-- A tensor's declared policy for shape changes (spec section 3). -/
inductive TensorShapeDynamism where
  | STATIC
  | DYNAMIC_BOUND
  | DYNAMIC_UNBOUND
deriving DecidableEq, Repr

/-- Error kinds of the engine (spec section 7). -/
inductive Error where
  | ShapeMismatch
  | UnsupportedCast
  | ResizeNotAllowed
  | UnsupportedDtype
deriving DecidableEq, Repr

/-- A tensor: logical shape, dtype, dynamism and the backing buffer.
The buffer holds `data.length` element slots, so the capacity of the
spec's data model is `data.length`; the invariant `shape.prod ≤ data.length`
is carried as a hypothesis where a theorem needs it. -/
structure Tensor where
  shape : List Nat
  dtype : ScalarType
  dynamism : TensorShapeDynamism
  data : List Int
deriving DecidableEq, Repr

/-- A scalar operand: tagged bool / signed-integer / floating payload
(spec section 3).  The floating payload is modelled as a rational; no
verified claim computes with it. -/
inductive ScalarV where
  | b : Bool → ScalarV
  | i : Int → ScalarV
  | d : Rat → ScalarV
deriving DecidableEq, Repr

/-- Result of one operator invocation: success with the final output tensor,
or failure carrying the error kind and the state of the output tensor at the
point the failing check fired (the C++ ET_CHECK aborts there, after any
in-place mutation already performed by earlier steps). -/
inductive OpResult where
  | ok : Tensor → OpResult
  | fail : Error → Tensor → OpResult
deriving DecidableEq, Repr

def isFloatingType (t : ScalarType) : Bool :=
  t == .Float || t == .Double

/-- Integer dtypes, excluding Bool (the C++ isIntegralType with includeBool = false). -/
def isIntegerType (t : ScalarType) : Bool :=
  t == .Byte || t == .Char || t == .Short || t == .Int || t == .Long

/-- The dtype allowlist of ET_SWITCH_INT_TYPES_AND(Bool, ...): integer dtypes plus Bool. -/
def isIntBType (t : ScalarType) : Bool :=
  isIntegerType t || t == .Bool

/-- The dtype allowlist of ET_SWITCH_REAL_TYPES_AND(Bool, ...): every numeric dtype plus Bool. -/
def isRealBType (t : ScalarType) : Bool :=
  isIntBType t || isFloatingType t

/-- The scalar-tag allowlist of ET_SWITCH_SCALAR_OBJ_INTB_TYPES: Bool and Long. -/
def isIntBScalarType (t : ScalarType) : Bool :=
  t == .Bool || t == .Long

/-- Width in bytes of one element (spec section 3 element_width). -/
def elementWidth (t : ScalarType) : Nat :=
  match t with
  | .Bool => 1
  | .Byte => 1
  | .Char => 1
  | .Short => 2
  | .Int => 4
  | .Long => 8
  | .Float => 4
  | .Double => 8

/-- Width in bits of an integral dtype's representation. -/
def bitWidth (t : ScalarType) : Nat :=
  match t with
  | .Bool => 1
  | .Byte => 8
  | .Char => 8
  | .Short => 16
  | .Int => 32
  | .Long => 64
  | .Float => 32
  | .Double => 64

/-- Smallest value representable in an integral dtype. -/
def intMinOf (t : ScalarType) : Int :=
  match t with
  | .Bool => 0
  | .Byte => 0
  | .Char => -128
  | .Short => -32768
  | .Int => -(2 ^ 31)
  | .Long => -(2 ^ 63)
  | .Float => 0
  | .Double => 0

/-- Largest value representable in an integral dtype. -/
def intMaxOf (t : ScalarType) : Int :=
  match t with
  | .Bool => 1
  | .Byte => 255
  | .Char => 127
  | .Short => 32767
  | .Int => 2 ^ 31 - 1
  | .Long => 2 ^ 63 - 1
  | .Float => 0
  | .Double => 0

/-- Whether integer value `v` is representable in integral dtype `t`. -/
def representableIn (t : ScalarType) (v : Int) : Bool :=
  intMinOf t ≤ v && v ≤ intMaxOf t

/-- static_cast into dtype `t`, modelled as two's-complement wrapping at the
dtype's width; casting to Bool is the C++ nonzero test, casting to a floating
dtype keeps the exact integer image. -/
def wrapCast (t : ScalarType) (v : Int) : Int :=
  match t with
  | .Bool => if v == 0 then 0 else 1
  | .Byte => v % 256
  | .Char => (v + 128) % 256 - 128
  | .Short => (v + 32768) % 65536 - 32768
  | .Int => (v + 2 ^ 31) % 2 ^ 32 - 2 ^ 31
  | .Long => (v + 2 ^ 63) % 2 ^ 64 - 2 ^ 63
  | .Float => v
  | .Double => v

/-- The nonnegative two's-complement image of `v` at width `w`. -/
def toUnsigned (w : Nat) (v : Int) : Nat :=
  (v % ((2 : Int) ^ w)).toNat

/-- C bitwise `a | b` at the integral dtype `t`: bit-or of the
two's-complement images, read back as a value of `t`. -/
def lorAt (t : ScalarType) (a b : Int) : Int :=
  wrapCast t (Int.ofNat (Nat.lor (toUnsigned (bitWidth t) a) (toUnsigned (bitWidth t) b)))

/-- src/kernels/portable/cpu/op_bitwise_or.cpp lines 27-30: the explicit
boolean specialization of the per-element function, `a || b`. -/
def bitwise_or_bool (a b : Bool) : Bool :=
  a || b

/-- The per-element function of op_bitwise_or.cpp lines 22-30 dispatched on
the computation dtype: the Bool specialization is the logical `a || b`
(operands at Bool dtype are already 0 or 1), every other instantiation of the
template is the C bitwise `a | b`. -/
def bitwise_or_ctype (t : ScalarType) (a b : Int) : Int :=
  if t == .Bool then (if bitwise_or_bool (a != 0) (b != 0) then 1 else 0)
  else lorAt t a b

/-- Modelled from the spec: `resize_tensor` (the Tensor Resizer of spec
section 4.3) is repository code not under src/.  STATIC succeeds only when
the target equals the current shape; DYNAMIC_BOUND succeeds when the target's
element count fits the capacity, updating the logical shape in place;
DYNAMIC_UNBOUND always succeeds, growing the backing buffer when needed. -/
def resize_tensor (t : Tensor) (target : List Nat) : Except Error Tensor :=
  match t.dynamism with
  | .STATIC =>
      if target = t.shape then .ok t else .error .ResizeNotAllowed
  | .DYNAMIC_BOUND =>
      if target.prod ≤ t.data.length then .ok { t with shape := target }
      else .error .ResizeNotAllowed
  | .DYNAMIC_UNBOUND =>
      .ok { t with shape := target,
                   data := t.data ++ List.replicate (target.prod - t.data.length) 0 }

/-- A dimension pair aligned from the trailing side is broadcast-compatible
iff the sizes are equal or at least one of them is 1 (spec section 4.1). -/
def dimCompat (a b : Nat) : Bool :=
  a == b || a == 1 || b == 1

/-- Broadcast of two shapes given with their trailing dimension FIRST
(reversed); missing dimensions of the shorter shape count as size 1 and each
output size is the max of the aligned pair (spec section 4.1). -/
def bcastRev : List Nat → List Nat → Option (List Nat)
  | [], bs => some (bs.map (fun b => Nat.max 1 b))
  | as, [] => some (as.map (fun a => Nat.max a 1))
  | a :: as, b :: bs =>
      if dimCompat a b then (bcastRev as bs).map (fun r => Nat.max a b :: r)
      else none

/-- Modelled from the spec: the Shape Broadcaster (spec section 4.1,
`broadcast(shapeA, shapeB) -> BroadcastPlan | ShapeMismatch`) is repository
code not under src/.  `none` stands for ShapeMismatch. -/
def broadcast (A B : List Nat) : Option (List Nat) :=
  (bcastRev A.reverse B.reverse).map List.reverse

/-- The size of `s` at trailing-aligned position `i` (i = 0 is the trailing
dimension); positions beyond the rank count as size 1. -/
def alignedDim (s : List Nat) (i : Nat) : Nat :=
  s.reverse.getD i 1

/-- Modelled from the spec: `promoteTypes` (the tensor-tensor Type Promoter
of spec section 4.2) is repository code not under src/.  Bool promotes to the
other type, integer with floating promotes to the floating type, two floating
types promote to the wider, uint8 with int8 promotes to int16, and otherwise
the wider integer type wins. -/
def intRank (t : ScalarType) : Nat :=
  match t with
  | .Byte => 1
  | .Char => 1
  | .Short => 2
  | .Int => 3
  | .Long => 4
  | _ => 0

def promoteTypes (a b : ScalarType) : ScalarType :=
  if a = b then a
  else if a = .Bool then b
  else if b = .Bool then a
  else if a = .Double ∨ b = .Double then .Double
  else if a = .Float ∨ b = .Float then .Float
  else if (a = .Byte ∧ b = .Char) ∨ (a = .Char ∧ b = .Byte) then .Short
  else if intRank b ≤ intRank a then a else b

/-- The dtype tag a Scalar reports (utils::get_scalar_dtype, repository code
not under src/, modelled from the spec's Scalar data model): a bool payload
reports Bool, an integer payload reports the 64-bit Long, a floating payload
reports Double. -/
def get_scalar_dtype (s : ScalarV) : ScalarType :=
  match s with
  | .b _ => .Bool
  | .i _ => .Long
  | .d _ => .Double

/-- Whether the scalar's value is representable in integral dtype `t`
(a bool payload always is; a floating payload never counts here). -/
def scalarFits (s : ScalarV) (t : ScalarType) : Bool :=
  match s with
  | .b _ => true
  | .i v => representableIn t v
  | .d _ => false

/-- Modelled from the spec: `utils::promote_type_with_scalar` (the
tensor-scalar Type Promoter of spec section 4.2) is repository code not under
src/.  A bool or integer scalar does not upcast an integer tensor whose dtype
can represent the scalar's value; a floating scalar promotes an integer or
bool tensor to a floating dtype. -/
def promote_type_with_scalar (t : ScalarType) (s : ScalarV) : ScalarType :=
  match s with
  | .b _ => t
  | .i v =>
      if isIntegerType t then (if representableIn t v then t else .Long)
      else if t = .Bool then .Long
      else t
  | .d _ =>
      if isFloatingType t then t else .Double

/-- Modelled from the spec: `canCast` (the cast-permission rule of spec
section 6) is repository code not under src/.  A floating computation dtype
may not be narrowed into an integer output, and a non-bool computation dtype
may not be narrowed into a Bool output; every widening or same-category cast
is allowed. -/
def canCast (frm dst : ScalarType) : Bool :=
  !(isFloatingType frm && isIntegerType dst) && !(!(frm == .Bool) && dst == .Bool)

/-- The integer value ET_EXTRACT_SCALAR reads out of a scalar.  A floating
payload is never extracted on the paths modelled here: a Double scalar tag is
rejected by the ET_SWITCH_SCALAR_OBJ_INTB_TYPES allowlist first. -/
def scalarToInt (s : ScalarV) : Int :=
  match s with
  | .b v => if v then 1 else 0
  | .i v => v
  | .d _ => 0

/-- Number of bytes of a tensor's logical contents. -/
def nbytes (t : Tensor) : Nat :=
  t.shape.prod * elementWidth t.dtype

/-- Modelled from the spec: `apply_unary_map_fn` (functional_util.h, the
unary Elementwise Applier of spec section 4.4) is repository code not under
src/.  Writes `f src[i]` to slot `i` of the destination buffer for every
`i < n`, leaving slots past `n` untouched. -/
def applyUnaryMap (f : Int → Int) (src dst : List Int) (n : Nat) : List Int :=
  (List.range dst.length).map (fun i => if i < n then f (src.getD i 0) else dst.getD i 0)

/-- Row-major multi-index of linear position `k` over `shape`
(last dimension fastest). -/
def unflatten : List Nat → Nat → List Nat
  | [], _ => []
  | d :: ds, k => ((k / ds.prod) % d) :: unflatten ds (k % ds.prod)

/-- The source multi-index of one input under broadcasting: align the output
multi-index from the trailing side (drop the leading extra coordinates) and
clamp every coordinate of a size-1 source dimension to 0 (stride-0 repeat,
spec section 4.4). -/
def srcIndex (shape idx : List Nat) : List Nat :=
  (List.zip shape (idx.drop (idx.length - shape.length))).map
    (fun p => if p.1 = 1 then 0 else p.2)

/-- Row-major linear offset of multi-index `idx` over `shape`. -/
def flattenIndex (shape idx : List Nat) : Nat :=
  (List.zip shape idx).foldl (fun acc p => acc * p.1 + p.2) 0

/-- Read the element of `t` that broadcasting assigns to output multi-index `idx`. -/
def readElem (t : Tensor) (idx : List Nat) : Int :=
  t.data.getD (flattenIndex t.shape (srcIndex t.shape idx)) 0

/-- Modelled from the spec: `apply_binary_elementwise_fn` (functional_util.h,
the binary Elementwise Applier of spec section 4.4) is repository code not
under src/.  Every logical output position `k` (row-major) receives
`f a[k'] b[k'']` where the source indices replay size-1 dimensions with
stride 0; buffer slots past the logical element count keep their contents. -/
def applyBinaryBroadcast (f : Int → Int → Int) (a b out1 : Tensor) : Tensor :=
  { out1 with data := (List.range out1.data.length).map (fun k =>
      if k < out1.shape.prod then
        f (readElem a (unflatten out1.shape k)) (readElem b (unflatten out1.shape k))
      else out1.data.getD k 0) }

/-- The per-element lambda of op_bitwise_or.cpp lines 60-66 and 104-110:
cast both operands to the computation dtype, combine them with `bitwise_or`,
and cast the result to the output dtype. -/
def bitwise_or_fn (common_type out_type : ScalarType) (va vb : Int) : Int :=
  wrapCast out_type
    (bitwise_or_ctype common_type (wrapCast common_type va) (wrapCast common_type vb))

/-- The closure of op_bitwise_or.cpp lines 104-110: the scalar operand is
extracted once and captured, the tensor element varies. -/
def bitwise_or_scalar_fn (common_type out_type : ScalarType) (b : ScalarV) (va : Int) : Int :=
  bitwise_or_fn common_type out_type va (scalarToInt b)

/-- Modelled from the spec: `resize_to_broadcast_target_size`
(broadcast_util.h) is repository code not under src/: compute the broadcast
shape of the two inputs and resize the output to it (spec sections 4.1, 4.3). -/
def resize_to_broadcast_target_size (a b out : Tensor) : Except Error Tensor :=
  match broadcast a.shape b.shape with
  | none => .error .ShapeMismatch
  | some s => resize_tensor out s

/-- src/kernels/portable/cpu/op_bitwise_or.cpp lines 36-76,
`bitwise_or_Tensor_out`: resize the output to the broadcast target size, then
check that the promoted computation dtype can be cast to the output dtype
(ET_CHECK line 51), then check the dtype allowlists of the ET_SWITCH macros
(lines 53-58), and only then apply the per-element function. -/
def bitwise_or_Tensor_out (a b out : Tensor) : OpResult :=
  match resize_to_broadcast_target_size a b out with
  | .error e => .fail e out
  | .ok out1 =>
      if canCast (promoteTypes a.dtype b.dtype) out1.dtype then
        if isIntBType a.dtype && isIntBType b.dtype
            && isIntBType (promoteTypes a.dtype b.dtype) && isRealBType out1.dtype then
          .ok (applyBinaryBroadcast
                (bitwise_or_fn (promoteTypes a.dtype b.dtype) out1.dtype) a b out1)
        else .fail .UnsupportedDtype out1
      else .fail .UnsupportedCast out1

/-- src/kernels/portable/cpu/op_bitwise_or.cpp lines 78-120,
`bitwise_or_Scalar_out`: resize the output to the input tensor's own shape
(line 86, no broadcasting against the scalar), then the canCast check
(line 93), then the ET_SWITCH allowlists (lines 95-102), then the unary map
over the output's element count. -/
def bitwise_or_Scalar_out (a : Tensor) (b : ScalarV) (out : Tensor) : OpResult :=
  match resize_tensor out a.shape with
  | .error e => .fail e out
  | .ok out1 =>
      if canCast (promote_type_with_scalar a.dtype b) out1.dtype then
        if isIntBType a.dtype && isIntBScalarType (get_scalar_dtype b)
            && isIntBType (promote_type_with_scalar a.dtype b) && isRealBType out1.dtype then
          .ok { out1 with data := applyUnaryMap (bitwise_or_scalar_fn (promote_type_with_scalar a.dtype b) out1.dtype b) a.data out1.data out1.shape.prod }
        else .fail .UnsupportedDtype out1
      else .fail .UnsupportedCast out1

/-- src/kernels/portable/cpu/op_detach_copy.cpp lines 25-44,
`detach_copy_out`: resize the output to the input's shape (line 29, aborting
on resize failure), then require same shape and dtype (line 34), then, only
when the input holds at least one byte, memcpy the input's bytes into the
output (lines 36-41); a zero-element input skips the copy entirely. -/
def detach_copy_out (self out : Tensor) : OpResult :=
  match resize_tensor out self.shape with
  | .error e => .fail e out
  | .ok out1 =>
      if self.shape = out1.shape ∧ self.dtype = out1.dtype then
        if 0 < nbytes self then
          .ok { out1 with data := applyUnaryMap id self.data out1.data self.shape.prod }
        else .ok out1
      else .fail .UnsupportedCast out1

/-- Modelled from the spec: the strictly floating unary operator entry point
(op_tan.cpp, repository code not under src/; its behaviour is pinned by
src/kernels/test/op_tan_test.cpp and spec sections 6 and 8): resize the
output to the input's shape, accept any real-or-bool input dtype, require a
floating output dtype, and only then apply the per-element function `f`
(the floating math itself, external to every claim verified here). -/
def unary_float_op_out (f : Int → Int) (self out : Tensor) : OpResult :=
  match resize_tensor out self.shape with
  | .error e => .fail e out
  | .ok out1 =>
      if isRealBType self.dtype then
        if isFloatingType out1.dtype then
          .ok { out1 with data := applyUnaryMap f self.data out1.data out1.shape.prod }
        else .fail .UnsupportedDtype out1
      else .fail .UnsupportedDtype out1

/-- Whether an Except result is a success. -/
def exceptOk {ε α : Type} (e : Except ε α) : Bool :=
  match e with
  | .ok _ => true
  | .error _ => false

/-- Whether an operator invocation failed. -/
def isFailR (r : OpResult) : Bool :=
  match r with
  | .ok _ => false
  | .fail _ _ => true

/-! ### Helper lemmas -/

theorem elementWidth_pos (t : ScalarType) : 0 < elementWidth t := by
  cases t <;> decide

theorem isRealBType_true (t : ScalarType) : isRealBType t = true := by
  cases t <;> decide

/-- A successful resize yields the target shape, keeps dtype, dynamism and
every existing buffer element, and never shrinks the buffer. -/
theorem resize_ok_facts (t : Tensor) (target : List Nat) (t' : Tensor)
    (h : resize_tensor t target = .ok t') :
    t'.shape = target ∧ t'.dtype = t.dtype ∧ t'.dynamism = t.dynamism ∧
    t.data.length ≤ t'.data.length ∧
    ∀ i, i < t.data.length → t'.data.getD i 0 = t.data.getD i 0 := by
  unfold resize_tensor at h
  cases hdy : t.dynamism <;> simp only [hdy] at h
  · split at h
    next hc =>
      injection h with h2
      subst h2
      exact ⟨hc.symm, rfl, hdy, Nat.le_refl _, fun i _ => rfl⟩
    next hc => simp at h
  · split at h
    next hc =>
      injection h with h2
      subst h2
      exact ⟨rfl, rfl, rfl, Nat.le_refl _, fun i _ => rfl⟩
    next hc => simp at h
  · injection h with h2
    subst h2
    refine ⟨rfl, rfl, rfl, ?_, ?_⟩
    · simp
    · intro i hi
      exact List.getD_append _ _ _ _ hi

theorem getD_range_map (f : Nat → Int) (n i : Nat) (h : i < n) :
    ((List.range n).map f).getD i 0 = f i := by
  rw [List.getD_eq_getElem _ _ (by simpa using h)]
  simp

theorem applyUnaryMap_length (f : Int → Int) (src dst : List Int) (n : Nat) :
    (applyUnaryMap f src dst n).length = dst.length := by
  simp [applyUnaryMap]

theorem applyUnaryMap_getD (f : Int → Int) (src dst : List Int) (n i : Nat)
    (hi : i < dst.length) :
    (applyUnaryMap f src dst n).getD i 0
      = if i < n then f (src.getD i 0) else dst.getD i 0 :=
  getD_range_map _ _ _ hi

/-- A successful detach_copy_out keeps the output dtype, requires the input's
dtype to match it, sets the input's shape, and copies the input's elements. -/
theorem detach_ok_facts (self out out1 : Tensor)
    (h : detach_copy_out self out = .ok out1) :
    out1.dtype = out.dtype ∧ self.dtype = out.dtype ∧ out1.shape = self.shape ∧
    (self.shape.prod ≤ out.data.length →
       ∀ i, i < self.shape.prod → out1.data.getD i 0 = self.data.getD i 0) := by
  unfold detach_copy_out at h
  cases hres : resize_tensor out self.shape with
  | error e => rw [hres] at h; simp at h
  | ok t1 =>
      simp only [hres] at h
      obtain ⟨hsh, hdt, hdyn, hlen, hget⟩ := resize_ok_facts out self.shape t1 hres
      split at h
      next hcond =>
        split at h
        next hnb =>
          injection h with h2
          subst h2
          refine ⟨hdt, hcond.2.trans hdt, hsh, ?_⟩
          intro hcap i hi
          have hi1 : i < t1.data.length := lt_of_lt_of_le (lt_of_lt_of_le hi hcap) hlen
          show (applyUnaryMap id self.data t1.data self.shape.prod).getD i 0
            = self.data.getD i 0
          rw [applyUnaryMap_getD _ _ _ _ _ hi1]
          simp [hi]
        next hnb =>
          injection h with h2
          subst h2
          refine ⟨hdt, hcond.2.trans hdt, hsh, ?_⟩
          intro hcap i hi
          exfalso
          have hz : nbytes self = 0 := Nat.eq_zero_of_not_pos hnb
          have hw := elementWidth_pos self.dtype
          unfold nbytes at hz
          have hp : self.shape.prod = 0 := by
            rcases Nat.mul_eq_zero.mp hz with hcase | hcase
            · exact hcase
            · omega
          omega
      next hcond => simp at h

/-- A failing detach_copy_out writes no element of the output buffer, and
when the failure is the resize step itself the shape is also untouched. -/
theorem detach_fail_facts (self out : Tensor) (e : Error) (out1 : Tensor)
    (h : detach_copy_out self out = .fail e out1) :
    (∀ i, i < out.data.length → out1.data.getD i 0 = out.data.getD i 0) ∧
    ((e = .ShapeMismatch ∨ e = .ResizeNotAllowed) → out1.shape = out.shape) := by
  unfold detach_copy_out at h
  cases hres : resize_tensor out self.shape with
  | error e2 =>
      simp only [hres] at h
      injection h with h1 h2
      subst h2
      exact ⟨fun i _ => rfl, fun _ => rfl⟩
  | ok t1 =>
      simp only [hres] at h
      obtain ⟨hsh, hdt, hdyn, hlen, hget⟩ := resize_ok_facts out self.shape t1 hres
      split at h
      next hcond => split at h <;> simp at h
      next hcond =>
        injection h with h1 h2
        subst h2
        subst h1
        refine ⟨hget, ?_⟩
        intro hdisj
        rcases hdisj with hh | hh <;> exact absurd hh (by decide)

/-! ### Claim theorems -/

/-- C2: the boolean specialization of the bitwise-or per-element function
returns the logical OR of its operands — true exactly when at least one
operand is true — and the capability-dispatched scalar function at Bool
computation dtype agrees with it on 0/1-encoded operands. -/
theorem bitwise_or_bool_is_logical_or (a b : Bool) :
    (bitwise_or_bool a b = true ↔ (a = true ∨ b = true)) ∧
    bitwise_or_ctype .Bool (if a then 1 else 0) (if b then 1 else 0)
      = (if a = true ∨ b = true then 1 else 0) := by
  cases a <;> cases b <;> exact ⟨by decide, by decide⟩

/-- C4: tensor-scalar promotion keeps an integer tensor's own dtype whenever
the bool/integer scalar's value is representable in it, and promotes an
integer tensor combined with a floating scalar to a floating dtype. -/
theorem promote_with_scalar_preserves (t : ScalarType) (s : ScalarV)
    (ht : isIntegerType t = true) :
    (scalarFits s t = true → promote_type_with_scalar t s = t) ∧
    (isFloatingType (get_scalar_dtype s) = true →
       isFloatingType (promote_type_with_scalar t s) = true) := by
  have hnf : isFloatingType t = false := by
    cases t <;> simp_all [isIntegerType, isFloatingType]
  cases s with
  | b v =>
      refine ⟨fun _ => rfl, fun hf => ?_⟩
      simp [get_scalar_dtype, isFloatingType] at hf
  | i v =>
      refine ⟨fun hfit => ?_, fun hf => ?_⟩
      · simp only [scalarFits] at hfit
        simp [promote_type_with_scalar, ht, hfit]
      · simp [get_scalar_dtype, isFloatingType] at hf
  | d q =>
      refine ⟨fun hfit => ?_, fun _ => ?_⟩
      · simp [scalarFits] at hfit
      · have hD : promote_type_with_scalar t (.d q) = .Double := by
          simp [promote_type_with_scalar, hnf]
        rw [hD]
        decide

theorem promote_with_scalar_preserves_witness :
    promote_type_with_scalar .Int (.i 5) = .Int ∧
    isFloatingType (promote_type_with_scalar .Int (.d 1)) = true :=
  ⟨(promote_with_scalar_preserves .Int (.i 5) (by decide)).1 (by decide),
   (promote_with_scalar_preserves .Int (.d 1) (by decide)).2 (by decide)⟩

/-- C5: resize of a STATIC tensor succeeds exactly when the target equals the
current shape, and resize of a DYNAMIC_BOUND tensor succeeds exactly when the
target's element count is at most the capacity (the buffer length), in which
case only the logical shape changes and the data does not move. -/
theorem resize_tensor_spec (t : Tensor) (target : List Nat) :
    (t.dynamism = .STATIC →
       (exceptOk (resize_tensor t target) = true ↔ target = t.shape)) ∧
    (t.dynamism = .DYNAMIC_BOUND →
       (exceptOk (resize_tensor t target) = true ↔ target.prod ≤ t.data.length) ∧
       (∀ t', resize_tensor t target = .ok t' →
          t'.shape = target ∧ t'.data = t.data)) := by
  constructor
  · intro hd
    unfold resize_tensor
    rw [hd]
    by_cases hc : target = t.shape <;> simp [hc, exceptOk]
  · intro hd
    unfold resize_tensor
    rw [hd]
    constructor
    · by_cases hc : target.prod ≤ t.data.length <;> simp [hc, exceptOk]
    · intro t' h
      by_cases hc : target.prod ≤ t.data.length <;> simp [hc] at h
      subst h
      exact ⟨rfl, rfl⟩

theorem resize_tensor_spec_witness :
    exceptOk (resize_tensor ⟨[3], .Int, .DYNAMIC_BOUND, [0, 0, 0, 0]⟩ [2, 2]) = true ∧
    exceptOk (resize_tensor ⟨[3], .Int, .STATIC, [0, 0, 0]⟩ [2]) = false := by
  constructor
  · exact (((resize_tensor_spec ⟨[3], .Int, .DYNAMIC_BOUND, [0, 0, 0, 0]⟩ [2, 2]).2
      rfl).1).mpr (by decide)
  · have h := (resize_tensor_spec ⟨[3], .Int, .STATIC, [0, 0, 0]⟩ [2]).1 rfl
    cases hb : exceptOk (resize_tensor ⟨[3], .Int, .STATIC, [0, 0, 0]⟩ [2])
    · rfl
    · exact absurd (h.mp hb) (by decide)

/-- C7: a copy of a zero-element tensor (a shape with a 0 dimension) touches
no buffer: it succeeds, returning the output with only its logical shape
updated and its buffer contents untouched, and the per-element copy runs
zero times. -/
theorem detach_copy_zero_element (self out : Tensor) (h0 : (0 : Nat) ∈ self.shape)
    (hdt : out.dtype = self.dtype) (hdy : out.dynamism = .DYNAMIC_BOUND) :
    detach_copy_out self out = .ok { out with shape := self.shape } := by
  have hp : self.shape.prod = 0 := List.prod_eq_zero h0
  unfold detach_copy_out resize_tensor
  rw [hdy]
  simp [hp, nbytes, hdt.symm]

theorem detach_copy_zero_element_witness :
    detach_copy_out ⟨[0], .Int, .STATIC, []⟩ ⟨[3], .Int, .DYNAMIC_BOUND, [7, 7, 7]⟩
      = .ok ⟨[0], .Int, .DYNAMIC_BOUND, [7, 7, 7]⟩ :=
  detach_copy_zero_element ⟨[0], .Int, .STATIC, []⟩ ⟨[3], .Int, .DYNAMIC_BOUND, [7, 7, 7]⟩
    (by simp) rfl rfl

/-- C8: a successful detach copy — the identity per-element function applied
over the whole input — makes every output element equal the corresponding
input element. -/
theorem detach_copy_identity (self out out1 : Tensor)
    (h : detach_copy_out self out = .ok out1)
    (hcap : self.shape.prod ≤ out.data.length) :
    ∀ i, i < self.shape.prod → out1.data.getD i 0 = self.data.getD i 0 :=
  fun i hi => (detach_ok_facts self out out1 h).2.2.2 hcap i hi

theorem detach_copy_identity_witness :
    (⟨[2], .Int, .DYNAMIC_BOUND, [5, 6]⟩ : Tensor).data.getD 0 0
      = (⟨[2], .Int, .STATIC, [5, 6]⟩ : Tensor).data.getD 0 0 :=
  detach_copy_identity ⟨[2], .Int, .STATIC, [5, 6]⟩ ⟨[2], .Int, .DYNAMIC_BOUND, [0, 0]⟩
    ⟨[2], .Int, .DYNAMIC_BOUND, [5, 6]⟩ (by decide) (by decide) 0 (by decide)

/-- C10: detach_copy_out requires equal input and output dtypes — differing
dtypes make the call fail with no output element written — and a successful
call performs no dtype conversion: the output dtype is the input's and the
elements are copied verbatim. -/
theorem detach_copy_dtype_contract (self out : Tensor) :
    (self.dtype ≠ out.dtype →
       isFailR (detach_copy_out self out) = true ∧
       ∀ e out1, detach_copy_out self out = .fail e out1 →
         ∀ i, i < out.data.length → out1.data.getD i 0 = out.data.getD i 0) ∧
    (∀ out1, detach_copy_out self out = .ok out1 →
       out1.dtype = self.dtype ∧
       (self.shape.prod ≤ out.data.length →
          ∀ i, i < self.shape.prod → out1.data.getD i 0 = self.data.getD i 0)) := by
  constructor
  · intro hne
    constructor
    · cases hr : detach_copy_out self out with
      | ok t => exact absurd (detach_ok_facts self out t hr).2.1 hne
      | fail e t => rfl
    · intro e out1 h
      exact (detach_fail_facts self out e out1 h).1
  · intro out1 h
    obtain ⟨h1, h2, _, h4⟩ := detach_ok_facts self out out1 h
    exact ⟨h1.trans h2.symm, h4⟩

theorem detach_copy_dtype_contract_witness :
    isFailR (detach_copy_out ⟨[1], .Float, .STATIC, [3]⟩ ⟨[1], .Int, .STATIC, [0]⟩) = true :=
  ((detach_copy_dtype_contract ⟨[1], .Float, .STATIC, [3]⟩ ⟨[1], .Int, .STATIC, [0]⟩).1
    (by decide)).1

/-- A failing bitwise_or_Tensor_out writes no element of the output buffer;
only a broadcast or resize failure is guaranteed to keep the pre-call shape. -/
theorem tensor_fail_facts (a b out : Tensor) (e : Error) (out1 : Tensor)
    (h : bitwise_or_Tensor_out a b out = .fail e out1) :
    (∀ i, i < out.data.length → out1.data.getD i 0 = out.data.getD i 0) ∧
    ((e = .ShapeMismatch ∨ e = .ResizeNotAllowed) → out1.shape = out.shape) := by
  unfold bitwise_or_Tensor_out at h
  cases hres : resize_to_broadcast_target_size a b out with
  | error e2 =>
      simp only [hres] at h
      injection h with h1 h2
      subst h2
      exact ⟨fun i _ => rfl, fun _ => rfl⟩
  | ok t1 =>
      simp only [hres] at h
      have hfacts : ∀ i, i < out.data.length → t1.data.getD i 0 = out.data.getD i 0 := by
        unfold resize_to_broadcast_target_size at hres
        cases hb : broadcast a.shape b.shape with
        | none =>
            simp only [hb] at hres
            simp at hres
        | some sh =>
            simp only [hb] at hres
            exact (resize_ok_facts out sh t1 hres).2.2.2.2
      split at h
      · split at h
        · simp at h
        · injection h with h1 h2
          subst h2
          subst h1
          refine ⟨hfacts, ?_⟩
          intro hdisj
          rcases hdisj with hh | hh <;> exact absurd hh (by decide)
      · injection h with h1 h2
        subst h2
        subst h1
        refine ⟨hfacts, ?_⟩
        intro hdisj
        rcases hdisj with hh | hh <;> exact absurd hh (by decide)

/-- A failing bitwise_or_Scalar_out writes no element of the output buffer;
only a resize failure is guaranteed to keep the pre-call shape. -/
theorem scalar_fail_facts (a : Tensor) (s : ScalarV) (out : Tensor) (e : Error)
    (out1 : Tensor) (h : bitwise_or_Scalar_out a s out = .fail e out1) :
    (∀ i, i < out.data.length → out1.data.getD i 0 = out.data.getD i 0) ∧
    ((e = .ShapeMismatch ∨ e = .ResizeNotAllowed) → out1.shape = out.shape) := by
  unfold bitwise_or_Scalar_out at h
  cases hres : resize_tensor out a.shape with
  | error e2 =>
      simp only [hres] at h
      injection h with h1 h2
      subst h2
      exact ⟨fun i _ => rfl, fun _ => rfl⟩
  | ok t1 =>
      simp only [hres] at h
      have hget := (resize_ok_facts out a.shape t1 hres).2.2.2.2
      split at h
      · split at h
        · simp at h
        · injection h with h1 h2
          subst h2
          subst h1
          refine ⟨hget, ?_⟩
          intro hdisj
          rcases hdisj with hh | hh <;> exact absurd hh (by decide)
      · injection h with h1 h2
        subst h2
        subst h1
        refine ⟨hget, ?_⟩
        intro hdisj
        rcases hdisj with hh | hh <;> exact absurd hh (by decide)

/-- C1 (amended): in every entry point — binary tensor-tensor, binary
tensor-scalar and unary copy — every validation check is performed before any
output element is written, and a failing call reports its specific error kind
with no output element written; a failure of shape compatibility or of the
resize itself leaves the output's shape unchanged, but when a check after the
resize step fails (cast permission, dtype support) the output keeps the
already-applied resized shape. -/
theorem entry_points_fail_before_write (a b out : Tensor) (s : ScalarV) :
    (∀ e out1, bitwise_or_Tensor_out a b out = .fail e out1 →
        (∀ i, i < out.data.length → out1.data.getD i 0 = out.data.getD i 0) ∧
        ((e = .ShapeMismatch ∨ e = .ResizeNotAllowed) → out1.shape = out.shape)) ∧
    (∀ e out1, bitwise_or_Scalar_out a s out = .fail e out1 →
        (∀ i, i < out.data.length → out1.data.getD i 0 = out.data.getD i 0) ∧
        ((e = .ShapeMismatch ∨ e = .ResizeNotAllowed) → out1.shape = out.shape)) ∧
    (∀ e out1, detach_copy_out a out = .fail e out1 →
        (∀ i, i < out.data.length → out1.data.getD i 0 = out.data.getD i 0) ∧
        ((e = .ShapeMismatch ∨ e = .ResizeNotAllowed) → out1.shape = out.shape)) :=
  ⟨fun e out1 h => tensor_fail_facts a b out e out1 h,
   fun e out1 h => scalar_fail_facts a s out e out1 h,
   fun e out1 h => detach_fail_facts a out e out1 h⟩

theorem entry_points_fail_before_write_witness :
    (⟨[2, 2], .Int, .DYNAMIC_BOUND, [0, 0, 0, 0]⟩ : Tensor).data.getD 0 0
      = (⟨[4], .Int, .DYNAMIC_BOUND, [0, 0, 0, 0]⟩ : Tensor).data.getD 0 0 :=
  ((entry_points_fail_before_write ⟨[2, 2], .Float, .STATIC, [1, 2, 3, 4]⟩
      ⟨[2, 2], .Float, .STATIC, [1, 2, 3, 4]⟩
      ⟨[4], .Int, .DYNAMIC_BOUND, [0, 0, 0, 0]⟩ (.i 0)).2.2 .UnsupportedCast
      ⟨[2, 2], .Int, .DYNAMIC_BOUND, [0, 0, 0, 0]⟩ (by decide)).1 0 (by decide)

/-- C1 counterexample: a post-resize check failure does NOT leave the output
shape unchanged.  detach_copy_out of a Float [2,2] input into an Int
DYNAMIC_BOUND output of shape [4] first resizes the output to [2,2] (spec
section 4.3: DYNAMIC_BOUND updates the shape in place) and only then fails
the dtype check of op_detach_copy.cpp line 34, so the reported failure leaves
the output with shape [2,2], not its pre-call shape [4]. -/
theorem detach_copy_fail_changes_shape :
    detach_copy_out ⟨[2, 2], .Float, .STATIC, [1, 2, 3, 4]⟩
        ⟨[4], .Int, .DYNAMIC_BOUND, [0, 0, 0, 0]⟩
      = .fail .UnsupportedCast ⟨[2, 2], .Int, .DYNAMIC_BOUND, [0, 0, 0, 0]⟩ ∧
    ([2, 2] : List Nat) ≠ [4] :=
  ⟨by decide, by decide⟩

/-- C6: a strictly floating unary operator invoked with a non-floating
output dtype fails — with the UnsupportedDtype kind, which is one of
UnsupportedCast/UnsupportedDtype — and writes no (truncated or other) result
element into the output buffer, for every per-element function `f`. -/
theorem unary_float_rejects_nonfloat (f : Int → Int) (self out out1 : Tensor)
    (hr : resize_tensor out self.shape = .ok out1)
    (hout : isFloatingType out.dtype = false) :
    unary_float_op_out f self out = .fail .UnsupportedDtype out1 ∧
    (∀ i, i < out.data.length → out1.data.getD i 0 = out.data.getD i 0) := by
  obtain ⟨hsh, hdt, hdyn, hlen, hget⟩ := resize_ok_facts out self.shape out1 hr
  refine ⟨?_, hget⟩
  unfold unary_float_op_out
  simp [hr, isRealBType_true, hdt, hout]

theorem unary_float_rejects_nonfloat_witness :
    unary_float_op_out (fun v => v) ⟨[2], .Float, .STATIC, [1, 2]⟩
        ⟨[2], .Int, .STATIC, [0, 0]⟩
      = .fail .UnsupportedDtype ⟨[2], .Int, .STATIC, [0, 0]⟩ :=
  (unary_float_rejects_nonfloat (fun v => v) ⟨[2], .Float, .STATIC, [1, 2]⟩
    ⟨[2], .Int, .STATIC, [0, 0]⟩ ⟨[2], .Int, .STATIC, [0, 0]⟩ rfl (by decide)).1

/-- C9: when bitwise_or_Scalar_out succeeds, the output's shape equals the
input tensor's shape exactly — the entry point resizes the output to
`a.sizes()` and performs no broadcasting against the scalar. -/
theorem scalar_out_shape_is_input_shape (a : Tensor) (s : ScalarV) (out out1 : Tensor)
    (h : bitwise_or_Scalar_out a s out = .ok out1) :
    out1.shape = a.shape := by
  unfold bitwise_or_Scalar_out at h
  cases hres : resize_tensor out a.shape with
  | error e =>
      simp only [hres] at h
      simp at h
  | ok t1 =>
      simp only [hres] at h
      have hsh : t1.shape = a.shape := (resize_ok_facts out a.shape t1 hres).1
      split at h
      · split at h
        · injection h with h2
          subst h2
          exact hsh
        · simp at h
      · simp at h

theorem scalar_out_shape_is_input_shape_witness :
    (⟨[2], .Int, .STATIC, [1, 3]⟩ : Tensor).shape
      = (⟨[2], .Int, .STATIC, [1, 2]⟩ : Tensor).shape :=
  scalar_out_shape_is_input_shape ⟨[2], .Int, .STATIC, [1, 2]⟩ (.i 1)
    ⟨[2], .Int, .STATIC, [0, 0]⟩ ⟨[2], .Int, .STATIC, [1, 3]⟩ (by decide)

theorem bcastRev_nil_left (bs : List Nat) :
    bcastRev [] bs = some (bs.map (fun b => Nat.max 1 b)) := by
  cases bs <;> rfl

theorem bcastRev_nil_right (as : List Nat) :
    bcastRev as [] = some (as.map (fun a => Nat.max a 1)) := by
  cases as <;> rfl

theorem getD_map_one (f : Nat → Nat) (hf : f 1 = 1) (l : List Nat) (i : Nat) :
    (l.map f).getD i 1 = f (l.getD i 1) := by
  induction l generalizing i with
  | nil => simp [hf]
  | cons x xs ih =>
      cases i with
      | zero => simp
      | succ n =>
          simp only [List.map_cons, List.getD_cons_succ]
          exact ih n

/-- The successful reversed-shape broadcast has the rank of the longer input
and takes the max of the aligned sizes at every position (missing positions
count as 1). -/
theorem bcastRev_some (as : List Nat) : ∀ bs cs, bcastRev as bs = some cs →
    cs.length = Nat.max as.length bs.length ∧
    ∀ i, cs.getD i 1 = Nat.max (as.getD i 1) (bs.getD i 1) := by
  induction as with
  | nil =>
      intro bs cs h
      rw [bcastRev_nil_left] at h
      injection h with h
      subst h
      constructor
      · simp
      · intro i
        rw [getD_map_one (fun b => Nat.max 1 b) (by decide)]
        simp
  | cons a as ih =>
      intro bs cs h
      cases bs with
      | nil =>
          rw [bcastRev_nil_right] at h
          injection h with h
          subst h
          constructor
          · simp
          · intro i
            rw [getD_map_one (fun a => Nat.max a 1) (by decide)]
            simp
      | cons b bs =>
          simp only [bcastRev] at h
          split at h
          next hc =>
            obtain ⟨r, hr, hcs⟩ := Option.map_eq_some'.mp h
            obtain ⟨hlen, hget⟩ := ih bs r hr
            subst hcs
            constructor
            · simp only [List.length_cons, hlen]
              exact (Nat.succ_max_succ as.length bs.length).symm
            · intro i
              cases i with
              | zero => simp
              | succ n => simpa using hget n
          next hc => simp at h

/-- The reversed-shape broadcast succeeds exactly when every aligned pair of
sizes is compatible (missing positions count as 1). -/
theorem bcastRev_isSome (as : List Nat) : ∀ bs,
    (bcastRev as bs).isSome = true ↔
      ∀ i, dimCompat (as.getD i 1) (bs.getD i 1) = true := by
  induction as with
  | nil =>
      intro bs
      rw [bcastRev_nil_left]
      simp only [Option.isSome_some, true_iff]
      intro i
      simp [dimCompat]
  | cons a as ih =>
      intro bs
      cases bs with
      | nil =>
          rw [bcastRev_nil_right]
          simp only [Option.isSome_some, true_iff]
          intro i
          simp [dimCompat]
      | cons b bs =>
          simp only [bcastRev]
          by_cases hc : dimCompat a b = true
          · rw [if_pos hc, Option.isSome_map']
            rw [ih bs]
            constructor
            · intro hall i
              cases i with
              | zero => simpa using hc
              | succ n => simpa using hall n
            · intro hall i
              simpa using hall (i + 1)
          · rw [if_neg hc]
            simp only [Option.isSome_none]
            constructor
            · intro hfalse
              exact absurd hfalse (by decide)
            · intro hall
              have h0 := hall 0
              simp only [List.getD_cons_zero] at h0
              exact absurd h0 hc

/-- C3: broadcasting aligns two shapes from the trailing dimension with
missing dimensions counting as size 1; it succeeds exactly when every aligned
pair of sizes is equal or contains a 1, any incompatible position yields
ShapeMismatch (`none`, no partial output), and a successful result has rank
max(rank A, rank B) with the max of the aligned sizes at every position. -/
theorem broadcast_spec (A B : List Nat) :
    ((broadcast A B).isSome = true ↔
        ∀ i, i < Nat.max A.length B.length →
          dimCompat (alignedDim A i) (alignedDim B i) = true) ∧
    (∀ C, broadcast A B = some C →
        C.length = Nat.max A.length B.length ∧
        ∀ i, i < C.length → alignedDim C i = Nat.max (alignedDim A i) (alignedDim B i)) := by
  constructor
  · rw [broadcast, Option.isSome_map', bcastRev_isSome]
    constructor
    · intro hall i _
      exact hall i
    · intro hbnd i
      by_cases hi : i < Nat.max A.length B.length
      · exact hbnd i hi
      · push_neg at hi
        have hA : A.length ≤ i := le_trans (Nat.le_max_left _ _) hi
        have hB : B.length ≤ i := le_trans (Nat.le_max_right _ _) hi
        have h1 : A.reverse.getD i 1 = 1 :=
          List.getD_eq_default _ _ (by simpa using hA)
        have h2 : B.reverse.getD i 1 = 1 :=
          List.getD_eq_default _ _ (by simpa using hB)
        show dimCompat (A.reverse.getD i 1) (B.reverse.getD i 1) = true
        rw [h1, h2]
        decide
  · intro C h
    rw [broadcast] at h
    obtain ⟨r, hr, hC⟩ := Option.map_eq_some'.mp h
    obtain ⟨hlen, hget⟩ := bcastRev_some A.reverse B.reverse r hr
    subst hC
    constructor
    · simp only [List.length_reverse] at hlen ⊢
      exact hlen
    · intro i _
      show (r.reverse).reverse.getD i 1 = _
      rw [List.reverse_reverse]
      exact hget i

theorem broadcast_spec_witness :
    ([3, 2, 5] : List Nat).length
        = Nat.max ([3, 2, 1] : List Nat).length ([2, 5] : List Nat).length ∧
    alignedDim [3, 2, 5] 0 = Nat.max (alignedDim [3, 2, 1] 0) (alignedDim [2, 5] 0) := by
  have h := (broadcast_spec [3, 2, 1] [2, 5]).2 [3, 2, 5] (by decide)
  exact ⟨h.1, h.2 0 (by decide)⟩

end Executorch
